import Mathlib

/-!
Verification of the credit-risk prediction application
(`src/components/data_transformation.py`, `src/pipeline/predict_pipeline.py`,
`src/pipeline/train_pipeline.py`, `application.py`) against its
natural-language specification.

Floating-point values of the Python code are modelled by rationals (ℚ);
pandas missing values (NaN / None) by `Option`.  The scikit-learn /
category_encoders library calls made by the source are embedded with their
documented default semantics, noted at each definition.
-/

namespace CreditRisk

/-- Arithmetic mean of a list of rationals (`0` on the empty list, which the
pipeline never hits). -/
def qmean (xs : List ℚ) : ℚ := xs.sum / xs.length

/-- NaN-skipping mean, as pandas/Numpy `nanmean` used by the library fit
routines: missing entries are ignored. -/
def qmeanO (xs : List (Option ℚ)) : ℚ := qmean (xs.filterMap id)

/-- Low-level Python exceptions that can arise inside the pipeline, plus the
`custom` wrapper: `src/exception.py` is not included in the sources, so,
modelled from the spec, `CustomException` (the spec's
`TrainingError`/`PredictionError`) wraps the underlying cause and preserves
it (`raise CustomException(e, sys)`). -/
inductive PyError where
  /-- The `ValueError` raised by `sklearn.preprocessing.OrdinalEncoder.transform`
  on a category unseen at fit time (default `handle_unknown='error'`). -/
  | unknownCategory (v : String)
  /-- The `IndexError` from `prediction[0]` on an empty input. -/
  | indexError
  /-- a failure inside the `data_ingestion` component (not under src/). -/
  | ingestionFailure (msg : String)
  /-- a failure inside the `model_trainer` component (not under src/). -/
  | trainerFailure (msg : String)
  /-- The wrapper `CustomException(e, sys)`: the categorized wrapper, carrying cause `e`. -/
  | custom (cause : PyError)
deriving DecidableEq, Repr

instance exceptDecEq {ε α : Type} [DecidableEq ε] [DecidableEq α] :
    DecidableEq (Except ε α)
  | .error e, .error f => decidable_of_iff (e = f) (by simp)
  | .error _, .ok _ => isFalse (by simp)
  | .ok _, .error _ => isFalse (by simp)
  | .ok a, .ok b => decidable_of_iff (a = b) (by simp)

/-- A raw applicant feature row as assembled by `InputData.get_input_data_df`
and handed to `PredictPipeline.predict`: the `Sex` column still holds the raw
string, categorical cells may be missing. -/
structure FeatureRow where
  age : ℚ
  sex : String
  job : ℚ
  housing : Option String
  saving_accounts : Option String
  checking_account : Option String
  credit_amount : ℚ
  duration : ℚ
  purpose : Option String
deriving DecidableEq, Repr

/-- A feature row after the in-place `features['Sex'] = features['Sex'].map(...)`
of `PredictPipeline.predict` (or the train-side mapping): the `Sex` column now
holds `1`/`0`, or NaN (`none`) when the raw value matched neither key. -/
structure MappedRow where
  age : ℚ
  sex : Option ℚ
  job : ℚ
  housing : Option String
  saving_accounts : Option String
  checking_account : Option String
  credit_amount : ℚ
  duration : ℚ
  purpose : Option String
deriving DecidableEq, Repr

/-- The sex mapping of `PredictPipeline.predict` line 78:
`features['Sex'].map({'male': 1, 'female': 0})`.  pandas `Series.map` sends a
key absent from the dict to NaN (`none`). -/
def mapSexPredict (s : String) : Option ℚ :=
  if s = "male" then some 1 else if s = "female" then some 0 else none

/-- The sex mapping of `DataTransformation.apply_data_transformation`
lines 147-148: `train['Sex'].map({'male': 1, 'female': 0})`. -/
def mapSexTrain (s : String) : Option ℚ :=
  if s = "male" then some 1 else if s = "female" then some 0 else none

/-- The target mapping of `apply_data_transformation` lines 145-146:
`train['Risk'].map({'bad': 1, 'good': 0})`. -/
def mapRisk (s : String) : Option ℚ :=
  if s = "bad" then some 1 else if s = "good" then some 0 else none

/-- The in-place update `features['Sex'] = features['Sex'].map(...)` applied
to one row: only the `Sex` column changes. -/
def mapSexRow (r : FeatureRow) : MappedRow :=
  { age := r.age, sex := mapSexPredict r.sex, job := r.job,
    housing := r.housing, saving_accounts := r.saving_accounts,
    checking_account := r.checking_account, credit_amount := r.credit_amount,
    duration := r.duration, purpose := r.purpose }

/-- Fitted parameters of one `sklearn.preprocessing.StandardScaler` column:
`mean_` and `scale_`. -/
structure ScalerParams where
  mean : ℚ
  scale : ℚ
deriving DecidableEq, Repr

/-- Embeds `StandardScaler.transform` on one cell: `(x - mean_) / scale_`. -/
def ScalerParams.transform (p : ScalerParams) (x : ℚ) : ℚ :=
  (x - p.mean) / p.scale

/-- Embeds `StandardScaler.fit` on one column: `mean_` is the NaN-skipping mean,
`scale_` is the square root of the NaN-skipping population variance (`1` when
the variance is zero).  The square root is the library's floating-point sqrt;
it is passed in as `sqrtQ` since its numeric value never affects the
properties proved here. -/
def ScalerParams.fit (sqrtQ : ℚ → ℚ) (xs : List (Option ℚ)) : ScalerParams :=
  let m := qmeanO xs
  let v := qmeanO (xs.map (Option.map (fun x => (x - m) ^ 2)))
  { mean := m, scale := if v = 0 then 1 else sqrtQ v }

/-- Embeds `StandardScaler.transform` over a NaN-able cell: NaN propagates
(`force_all_finite='allow-nan'`). -/
def ScalerParams.transformO (p : ScalerParams) (x : Option ℚ) : Option ℚ :=
  x.map p.transform

/-- Lexicographic comparison of character lists by code point — the order
numpy uses when `OrdinalEncoder.fit` sorts the category strings. -/
def charListLe : List Char → List Char → Bool
  | [], _ => true
  | _ :: _, [] => false
  | a :: as, b :: bs =>
    if a.toNat < b.toNat then true
    else if b.toNat < a.toNat then false
    else charListLe as bs

/-- Lexicographic order on strings by code point. -/
def strLe (a b : String) : Bool := charListLe a.data b.data

/-- Sorted list of the distinct elements of `xs` (ascending). -/
def sortedDistinct (xs : List String) : List String :=
  (xs.insertionSort (fun a b => strLe a b = true)).dedup

/-- Embeds the `SimpleImputer(strategy='most_frequent')` fit statistic: the most frequent
value of the observed (non-missing) cells; among ties, the smallest value
(scipy mode convention used by sklearn). -/
def mostFrequent (xs : List String) : String :=
  match (sortedDistinct xs).foldl
      (fun best v =>
        match best with
        | none => some v
        | some b => if xs.count b < xs.count v then some v else best)
      none with
  | some b => b
  | none => ""

/-- Fitted state of one ordinal-pipeline column
(`Pipeline([SimpleImputer(most_frequent), OrdinalEncoder(), StandardScaler()])`
of `DataTransformation.get_preprocessor`): the imputation statistic, the
`categories_` list of the ordinal encoder, and the scaler parameters. -/
structure OrdColState where
  imputeValue : String
  categories : List String
  scaler : ScalerParams
deriving DecidableEq, Repr

/-- The integer code `OrdinalEncoder` assigns to a category: its index in the
sorted `categories_` list, `none` if unseen at fit time. -/
def OrdColState.code (st : OrdColState) (v : String) : Option ℕ :=
  st.categories.findIdx? (· = v)

/-- Imputer + ordinal-encoder stage of the ordinal pipeline on one cell:
missing cells are imputed with the fit-time most-frequent statistic, then the
category is encoded; a category unseen at fit time raises `ValueError`
(`OrdinalEncoder()` default `handle_unknown='error'`). -/
def OrdColState.encode (st : OrdColState) (cell : Option String) :
    Except PyError ℚ :=
  let v := cell.getD st.imputeValue
  match st.code v with
  | some i => .ok (i : ℚ)
  | none => .error (.unknownCategory v)

/-- Full ordinal pipeline transform on one cell: impute, encode, scale. -/
def OrdColState.transform (st : OrdColState) (cell : Option String) :
    Except PyError ℚ :=
  (st.encode cell).map st.scaler.transform

/-- Fit of the ordinal pipeline on one training column: the imputer learns the
most frequent observed category, `OrdinalEncoder.fit` records the sorted
distinct categories of the imputed column, and the scaler is fit on the
resulting integer codes. -/
def OrdColState.fitCol (sqrtQ : ℚ → ℚ) (xs : List (Option String)) :
    OrdColState :=
  let imp := mostFrequent (xs.filterMap id)
  let imputed := xs.map (fun c => c.getD imp)
  let cats := sortedDistinct imputed
  let codes : List (Option ℚ) :=
    imputed.map (fun v => some (((cats.findIdx? (· = v)).getD 0 : ℕ) : ℚ))
  { imputeValue := imp, categories := cats,
    scaler := ScalerParams.fit sqrtQ codes }

/-- Fitted state of one target-pipeline column
(`Pipeline([TargetEncoder(cols=...), StandardScaler()])`): the
category-to-statistic mapping, the fallback value used for unseen and missing
categories, and the scaler parameters. -/
structure TgtColState where
  catStats : List (String × ℚ)
  fallback : ℚ
  scaler : ScalerParams
deriving DecidableEq, Repr

/-- Embeds the `category_encoders.TargetEncoder.transform` stage on one cell: a known
category maps to its recorded statistic; an unseen category
(`handle_unknown='value'`, the default) and a missing cell
(`handle_missing='value'`) both map to the recorded fallback (the global
target mean).  This stage never raises. -/
def TgtColState.encode (st : TgtColState) (cell : Option String) : ℚ :=
  match cell with
  | none => st.fallback
  | some v => (st.catStats.lookup v).getD st.fallback

/-- Full target pipeline transform on one cell: encode then scale. -/
def TgtColState.transform (st : TgtColState) (cell : Option String) : ℚ :=
  st.scaler.transform (st.encode cell)

/-- Fit of the target pipeline on one training column.  Modelled from the
spec: `category_encoders` internals are not part of the repository; per the
spec each category is "replaced by a statistic derived from training_labels
associated with that category (a target-mean encoding)" and "categories
unseen at fit time must have a defined fallback value (e.g., global mean)".
The scaler is then fit on the encoded training column. -/
def TgtColState.fitCol (sqrtQ : ℚ → ℚ) (cells : List (Option String))
    (ys : List (Option ℚ)) : TgtColState :=
  let global := qmeanO ys
  let pairs := cells.zip ys
  let cats := sortedDistinct (cells.filterMap id)
  let stats := cats.map (fun c =>
    (c, qmeanO ((pairs.filter (fun p => p.1 = some c)).map (fun p => p.2))))
  let enc : Option String → ℚ := fun cell =>
    match cell with
    | none => global
    | some v => (stats.lookup v).getD global
  { catStats := stats, fallback := global,
    scaler := ScalerParams.fit sqrtQ (cells.map (fun c => some (enc c))) }

/-- The fitted `ColumnTransformer` of `DataTransformation.get_preprocessor`:
ordinal pipeline on `['Purpose', 'Housing']`, target pipeline on
`['Saving accounts', 'Checking account']`, a `StandardScaler` on
`['Age', 'Sex', 'Job', 'Credit amount', 'Duration']`, remainder passthrough
(no column remains). -/
structure PreprocessorState where
  purpose : OrdColState
  housing : OrdColState
  saving : TgtColState
  checking : TgtColState
  age : ScalerParams
  sexP : ScalerParams
  job : ScalerParams
  credit : ScalerParams
  durationP : ScalerParams
deriving DecidableEq, Repr

/-- The source columns feeding the nine output columns of the fitted
`ColumnTransformer`, in its output order: first the ordinal block, then the
target block, then the scaled numeric block. -/
def outputColumns : List String :=
  ["Purpose", "Housing", "Saving accounts", "Checking account",
   "Age", "Sex", "Job", "Credit amount", "Duration"]

/-- Embeds `preprocessor.transform` on one row: each block applies its fitted
per-column transform; the ordinal block may raise on an unseen category and
the whole call then raises; cells are NaN-able (the scaled `Sex` cell is NaN
when the mapped sex was NaN). -/
def PreprocessorState.transform (st : PreprocessorState) (r : MappedRow) :
    Except PyError (List (Option ℚ)) := do
  let p ← st.purpose.transform r.purpose
  let h ← st.housing.transform r.housing
  pure [some p, some h,
        some (st.saving.transform r.saving_accounts),
        some (st.checking.transform r.checking_account),
        some (st.age.transform r.age),
        st.sexP.transformO r.sex,
        some (st.job.transform r.job),
        some (st.credit.transform r.credit_amount),
        some (st.durationP.transform r.duration)]

/-- Embeds `preprocessor.fit` (the fit half of `fit_transform` at
`apply_data_transformation` line 165): each block fits its columns on the
training rows; the target pipeline also sees the training labels. -/
def PreprocessorState.fit (sqrtQ : ℚ → ℚ) (rows : List MappedRow)
    (ys : List (Option ℚ)) : PreprocessorState :=
  { purpose := OrdColState.fitCol sqrtQ (rows.map (fun r => r.purpose)),
    housing := OrdColState.fitCol sqrtQ (rows.map (fun r => r.housing)),
    saving := TgtColState.fitCol sqrtQ
      (rows.map (fun r => r.saving_accounts)) ys,
    checking := TgtColState.fitCol sqrtQ
      (rows.map (fun r => r.checking_account)) ys,
    age := ScalerParams.fit sqrtQ (rows.map (fun r => some r.age)),
    sexP := ScalerParams.fit sqrtQ (rows.map (fun r => r.sex)),
    job := ScalerParams.fit sqrtQ (rows.map (fun r => some r.job)),
    credit := ScalerParams.fit sqrtQ (rows.map (fun r => some r.credit_amount)),
    durationP := ScalerParams.fit sqrtQ (rows.map (fun r => some r.duration)) }

/-- The fixed decision threshold of `PredictPipeline.predict` line 89. -/
def THRESHOLD : ℚ := 42902538161651166 / 100000000000000000

/-- The two verdict strings of `PredictPipeline.predict` lines 94 and 96. -/
def badRiskStr : String := "This customer presents BAD RISK"

/-- See `badRiskStr`. -/
def goodRiskStr : String := "This customer presents GOOD RISK"

/-- A model artifact: per the spec ("fitted parameters of a
probability-estimating classifier over the encoded feature vector"), the
classifier scores each encoded row independently; `Model` gives the row's
`predict_proba[:, 1]` entry, the estimated probability of class 1
("bad risk").  The fitted model itself (`model.pkl`) is not part of the
sources, so it stays abstract. -/
def Model : Type := List (Option ℚ) → ℚ

/-- Embeds `model.predict_proba(prepared_data)[:, 1]`: the per-row probabilities of
class 1, row order preserved. -/
def predictProba (model : Model) (m : List (List (Option ℚ))) : List ℚ :=
  m.map model

/-- Embeds `preprocessor.transform` over a whole DataFrame: every row is
transformed, and a failure on any row fails the whole call. -/
def transformAll (st : PreprocessorState) :
    List MappedRow → Except PyError (List (List (Option ℚ)))
  | [] => .ok []
  | r :: rs => do
    let p ← st.transform r
    let ps ← transformAll st rs
    .ok (p :: ps)

/-- Embeds `PredictPipeline.predict(features)` given already-loaded artifacts: maps
the `Sex` column in place, transforms every row, scores, thresholds, and
reads `prediction[0]`.  The first component is the returned verdict (or the
raised `CustomException`, which wraps the cause); the second component is the
caller-visible `features` DataFrame after the call — the in-place `Sex`
update persists even when a later step raises. -/
def predictRun (st : PreprocessorState) (model : Model)
    (features : List FeatureRow) :
    Except PyError String × List MappedRow :=
  let mapped := features.map mapSexRow
  let res : Except PyError String :=
    match transformAll st mapped with
    | .error e => .error (.custom e)
    | .ok prepared =>
      match predictProba model prepared with
      | [] => .error (.custom .indexError)
      | p :: _ =>
        .ok (if THRESHOLD ≤ p then badRiskStr else goodRiskStr)
  (res, mapped)

/-- Embeds `InputData` as constructed by `application.predict_datapoint`: every field
arrives as the raw form string (`request.form.get`), and `InputData.__init__`
stores each one unchanged — no validation or coercion happens. -/
structure InputData where
  age : String
  sex : String
  job : String
  housing : String
  saving_accounts : String
  checking_account : String
  credit_amount : String
  duration : String
  purpose : String
deriving DecidableEq, Repr

/-- One row of the DataFrame built by `InputData.get_input_data_df`, column
names as in the source dict. -/
structure InputDataFrameRow where
  colAge : String
  colSex : String
  colJob : String
  colHousing : String
  colSavingAccounts : String
  colCheckingAccount : String
  colCreditAmount : String
  colDuration : String
  colPurpose : String
deriving DecidableEq, Repr

/-- Embeds `InputData.get_input_data_df`: it packs the stored attributes, unchanged,
into a one-row DataFrame.  Nothing in the body can fail, so the function is
total. -/
def InputData.get_input_data_df (d : InputData) : InputDataFrameRow :=
  { colAge := d.age, colSex := d.sex, colJob := d.job,
    colHousing := d.housing, colSavingAccounts := d.saving_accounts,
    colCheckingAccount := d.checking_account,
    colCreditAmount := d.credit_amount, colDuration := d.duration,
    colPurpose := d.purpose }

/-- One row of the raw train/test CSVs read by
`apply_data_transformation`: the feature columns plus the `Risk` label and
the `Unnamed: 0` row identifier that is dropped. -/
structure RawTrainRow where
  unnamed0 : ℚ
  age : ℚ
  sex : String
  job : ℚ
  housing : Option String
  saving_accounts : Option String
  checking_account : Option String
  credit_amount : ℚ
  duration : ℚ
  purpose : Option String
  risk : String
deriving DecidableEq, Repr

/-- The train-side row mapping of `apply_data_transformation`: `Sex` mapped
to 0/1 via `mapSexTrain`, label and identifier columns dropped. -/
def mapTrainRow (r : RawTrainRow) : MappedRow :=
  { age := r.age, sex := mapSexTrain r.sex, job := r.job,
    housing := r.housing, saving_accounts := r.saving_accounts,
    checking_account := r.checking_account, credit_amount := r.credit_amount,
    duration := r.duration, purpose := r.purpose }

/-- Embeds `DataTransformation.apply_data_transformation` on already-read train and
test tables: maps `Risk` and `Sex` to 0/1, drops `Risk` and `Unnamed: 0`,
fits the preprocessor on the train features and labels, transforms both sets,
and appends the label column back.  Any failure (e.g. an unseen ordinal
category in the test set) is re-raised as `CustomException` wrapping the
cause. -/
def applyDataTransformation (sqrtQ : ℚ → ℚ)
    (train test : List RawTrainRow) :
    Except PyError
      (List (List (Option ℚ) × Option ℚ) × List (List (Option ℚ) × Option ℚ)
        × PreprocessorState) :=
  let yTrain := train.map (fun r => mapRisk r.risk)
  let yTest := test.map (fun r => mapRisk r.risk)
  let xTrain := train.map mapTrainRow
  let xTest := test.map mapTrainRow
  let st := PreprocessorState.fit sqrtQ xTrain yTrain
  match transformAll st xTrain with
  | .error e => .error (.custom e)
  | .ok trainPrep =>
    match transformAll st xTest with
    | .error e => .error (.custom e)
    | .ok testPrep =>
      .ok (trainPrep.zip yTrain, testPrep.zip yTest, st)

/-- Embeds `TrainPipeline.train`: data ingestion, data transformation, model
training.  The `data_ingestion` and `model_trainer` components are not under
src/; modelled from the spec, they are fallible stages passed in as
parameters (`ingest` yields the train/test tables, `trainer` fits and
evaluates, returning the classification report and ROC-AUC score).  Every
failure inside the body is caught and re-raised as `CustomException`
wrapping the cause. -/
def trainRun (sqrtQ : ℚ → ℚ)
    (ingest : Except PyError (List RawTrainRow × List RawTrainRow))
    (trainer : List (List (Option ℚ) × Option ℚ) →
      List (List (Option ℚ) × Option ℚ) → Except PyError (String × ℚ)) :
    Except PyError (String × ℚ) :=
  match ingest with
  | .error e => .error (.custom e)
  | .ok (train, test) =>
    match applyDataTransformation sqrtQ train test with
    | .error e => .error (.custom e)
    | .ok (trainPrep, testPrep, _) =>
      match trainer trainPrep testPrep with
      | .error e => .error (.custom e)
      | .ok rep => .ok rep

/-! Concrete sample data used to instantiate the theorems below: a small
synthetic training set in the schema of the German-bank CSVs, a fitted
preprocessor, and a hand-written fitted state with identity-like scalers. -/

/-- Sample training row (schema of §6 of the spec / the end-to-end row of
§8). -/
def trainRow1 : RawTrainRow :=
  { unnamed0 := 0, age := 30, sex := "male", job := 2, housing := some "own",
    saving_accounts := some "little", checking_account := some "moderate",
    credit_amount := 5000, duration := 12, purpose := some "car",
    risk := "good" }

/-- Second sample training row. -/
def trainRow2 : RawTrainRow :=
  { unnamed0 := 1, age := 40, sex := "female", job := 1,
    housing := some "rent", saving_accounts := some "rich",
    checking_account := none, credit_amount := 2000, duration := 24,
    purpose := some "radio/TV", risk := "bad" }

/-- Third sample training row, with a missing `Saving accounts` cell. -/
def trainRow3 : RawTrainRow :=
  { unnamed0 := 2, age := 25, sex := "male", job := 2, housing := some "own",
    saving_accounts := none, checking_account := some "little",
    credit_amount := 1000, duration := 6, purpose := some "car",
    risk := "good" }

/-- The sample training set. -/
def sampleTrain : List RawTrainRow := [trainRow1, trainRow2, trainRow3]

/-- The mapped feature rows of the sample training set. -/
def sampleRows : List MappedRow := sampleTrain.map mapTrainRow

/-- The mapped labels of the sample training set. -/
def sampleYs : List (Option ℚ) := sampleTrain.map (fun r => mapRisk r.risk)

/-- The preprocessor fitted on the sample training set (square root
instantiated with `id`; no proved property depends on its values). -/
def sampleState : PreprocessorState :=
  PreprocessorState.fit id sampleRows sampleYs

/-- A hand-written fitted preprocessor state whose scalers are centred at `0`
with unit scale, used to instantiate universally quantified theorems. -/
def witState : PreprocessorState :=
  { purpose := { imputeValue := "car", categories := ["car", "radio/TV"],
                 scaler := ⟨0, 1⟩ },
    housing := { imputeValue := "own", categories := ["own", "rent"],
                 scaler := ⟨0, 1⟩ },
    saving := { catStats := [("little", 1/3)], fallback := 1/3,
                scaler := ⟨0, 1⟩ },
    checking := { catStats := [("moderate", 1/2)], fallback := 1/2,
                  scaler := ⟨0, 1⟩ },
    age := ⟨0, 1⟩, sexP := ⟨0, 1⟩, job := ⟨0, 1⟩, credit := ⟨0, 1⟩,
    durationP := ⟨0, 1⟩ }

/-- The end-to-end sample inference row of §8 of the spec. -/
def witRow : FeatureRow :=
  { age := 30, sex := "male", job := 2, housing := some "own",
    saving_accounts := some "little", checking_account := some "moderate",
    credit_amount := 5000, duration := 12, purpose := some "car" }

/-- The matrix row `witState.transform` produces for `witRow`, written out
cell by cell. -/
def witPrep : List (Option ℚ) :=
  [some (witState.purpose.scaler.transform ((0 : ℕ) : ℚ)),
   some (witState.housing.scaler.transform ((0 : ℕ) : ℚ)),
   some (witState.saving.transform (some "little")),
   some (witState.checking.transform (some "moderate")),
   some (witState.age.transform 30),
   some (witState.sexP.transform 1),
   some (witState.job.transform 2),
   some (witState.credit.transform 5000),
   some (witState.durationP.transform 12)]

/-- Helper: a successful `preprocessor.transform` of one row always produces
the nine cells of `outputColumns`, in that order, each computed from its own
source column. -/
theorem transform_ok_shape (st : PreprocessorState) (r : MappedRow)
    (prep : List (Option ℚ)) (h : st.transform r = .ok prep) :
    ∃ p hq, st.purpose.transform r.purpose = .ok p
      ∧ st.housing.transform r.housing = .ok hq
      ∧ prep = [some p, some hq,
          some (st.saving.transform r.saving_accounts),
          some (st.checking.transform r.checking_account),
          some (st.age.transform r.age),
          st.sexP.transformO r.sex,
          some (st.job.transform r.job),
          some (st.credit.transform r.credit_amount),
          some (st.durationP.transform r.duration)] := by
  unfold PreprocessorState.transform at h
  cases hp : st.purpose.transform r.purpose with
  | error e => simp [hp, Except.bind, bind] at h
  | ok p =>
    cases hh : st.housing.transform r.housing with
    | error e => simp [hp, hh, Except.bind, bind] at h
    | ok hq =>
      refine ⟨p, hq, rfl, rfl, ?_⟩
      simp [hp, hh, Except.bind, bind, pure, Except.pure] at h
      exact h.symm

/-- C1: for every input row, `PredictPipeline.predict` thresholds the model's
class-1 ("bad risk") probability at `T = 0.42902538161651166`: it returns the
bad-risk verdict iff the probability is `≥ T` (equality included), the
good-risk verdict otherwise, and these are the only two possible returns. -/
theorem claim_C1 (st : PreprocessorState) (model : Model) (r : FeatureRow)
    (prep : List (Option ℚ)) (h : st.transform (mapSexRow r) = .ok prep) :
    ((predictRun st model [r]).1 =
        .ok (if THRESHOLD ≤ model prep then badRiskStr else goodRiskStr))
    ∧ (model prep = THRESHOLD →
        (predictRun st model [r]).1 = .ok badRiskStr)
    ∧ (∀ l, (predictRun st model [r]).1 = .ok l →
        l = badRiskStr ∨ l = goodRiskStr) := by
  have hall : transformAll st [mapSexRow r] = .ok [prep] := by
    simp [transformAll, h, Except.bind, bind, pure, Except.pure]
  have hrun : (predictRun st model [r]).1 =
      .ok (if THRESHOLD ≤ model prep then badRiskStr else goodRiskStr) := by
    simp [predictRun, hall, predictProba]
  refine ⟨hrun, fun hT => ?_, fun l hl => ?_⟩
  · rw [hrun, if_pos (le_of_eq hT.symm)]
  · rw [hrun] at hl
    by_cases hc : THRESHOLD ≤ model prep
    · left; rw [if_pos hc] at hl; exact (Except.ok.injEq .. ▸ hl).symm
    · right; rw [if_neg hc] at hl; exact (Except.ok.injEq .. ▸ hl).symm

/-- C1 witness: instantiated at the spec's end-to-end sample row, a fitted
state with unit scalers and a model that returns probability 1. -/
theorem claim_C1_witness :
    (predictRun witState (fun _ => 1) [witRow]).1 =
      .ok (if THRESHOLD ≤ (1 : ℚ) then badRiskStr else goodRiskStr) :=
  (claim_C1 witState (fun _ => 1) witRow witPrep rfl).1

/-- C4: for fixed loaded artifacts (encoder state and model) and a fixed
input, any two calls of `PredictPipeline.predict` agree — the result is a
deterministic function of the artifacts and the input row, and nothing else
enters the computation. -/
theorem claim_C4 (st st' : PreprocessorState) (model model' : Model)
    (features features' : List FeatureRow) (h1 : st = st')
    (h2 : model = model') (h3 : features = features') :
    predictRun st model features = predictRun st' model' features' := by
  subst h1; subst h2; subst h3; rfl

/-- C4 witness: two calls at the sample artifacts and the sample row. -/
theorem claim_C4_witness :
    predictRun witState (fun _ => 1) [witRow] =
      predictRun witState (fun _ => 1) [witRow] :=
  claim_C4 witState witState (fun _ => 1) (fun _ => 1) [witRow] [witRow]
    rfl rfl rfl

/-- C9: `PredictPipeline.predict` mutates its caller's DataFrame: after the
call the `Sex` column holds the mapped 0/1 codes (null when unrecognized),
while every other column keeps its original value. -/
theorem claim_C9 (st : PreprocessorState) (model : Model)
    (features : List FeatureRow) (r : FeatureRow) :
    (predictRun st model features).2 = features.map mapSexRow
    ∧ (mapSexRow r).sex = mapSexPredict r.sex
    ∧ (mapSexRow r).age = r.age
    ∧ (mapSexRow r).job = r.job
    ∧ (mapSexRow r).housing = r.housing
    ∧ (mapSexRow r).saving_accounts = r.saving_accounts
    ∧ (mapSexRow r).checking_account = r.checking_account
    ∧ (mapSexRow r).credit_amount = r.credit_amount
    ∧ (mapSexRow r).duration = r.duration
    ∧ (mapSexRow r).purpose = r.purpose :=
  ⟨rfl, rfl, rfl, rfl, rfl, rfl, rfl, rfl, rfl, rfl⟩

/-- C2 counterexample: on the preprocessor fitted to the sample training set,
transforming a row whose `Purpose` holds the category `"business"` — never
seen at fit time — raises (`OrdinalEncoder` default `handle_unknown='error'`)
instead of resolving to a fallback, refuting the claim for the
ordinal-encoded columns. -/
theorem claim_C2_cex :
    sampleState.transform (mapSexRow { witRow with purpose := some "business" })
      = .error (.unknownCategory "business") := by decide

/-- C2 amended: unseen categories are safe only in the target-encoded columns
(`Saving accounts`, `Checking account`), where they resolve to the recorded
fallback (the global target mean); in the ordinal-encoded columns
(`Purpose`, `Housing`) an unseen category raises an error. -/
theorem claim_C2_amended (st : PreprocessorState) (r : MappedRow)
    (v w : String) (ip ih : ℕ)
    (hs : r.saving_accounts = some v)
    (hsv : st.saving.catStats.lookup v = none)
    (hc : r.checking_account = some w)
    (hcw : st.checking.catStats.lookup w = none)
    (hp : st.purpose.code (r.purpose.getD st.purpose.imputeValue) = some ip)
    (hh : st.housing.code (r.housing.getD st.housing.imputeValue) = some ih) :
    (∃ prep, st.transform r = .ok prep
      ∧ prep[2]? = some (some (st.saving.scaler.transform st.saving.fallback))
      ∧ prep[3]? =
          some (some (st.checking.scaler.transform st.checking.fallback)))
    ∧ (∀ u, st.purpose.code u = none →
        st.purpose.transform (some u) = .error (.unknownCategory u)) := by
  have hsav : st.saving.transform r.saving_accounts =
      st.saving.scaler.transform st.saving.fallback := by
    rw [hs]; simp [TgtColState.transform, TgtColState.encode, hsv]
  have hchk : st.checking.transform r.checking_account =
      st.checking.scaler.transform st.checking.fallback := by
    rw [hc]; simp [TgtColState.transform, TgtColState.encode, hcw]
  have hpok : st.purpose.transform r.purpose =
      .ok (st.purpose.scaler.transform (ip : ℚ)) := by
    simp [OrdColState.transform, OrdColState.encode, hp, Except.map]
  have hhok : st.housing.transform r.housing =
      .ok (st.housing.scaler.transform (ih : ℚ)) := by
    simp [OrdColState.transform, OrdColState.encode, hh, Except.map]
  refine ⟨⟨[some (st.purpose.scaler.transform (ip : ℚ)),
      some (st.housing.scaler.transform (ih : ℚ)),
      some (st.saving.transform r.saving_accounts),
      some (st.checking.transform r.checking_account),
      some (st.age.transform r.age), st.sexP.transformO r.sex,
      some (st.job.transform r.job),
      some (st.credit.transform r.credit_amount),
      some (st.durationP.transform r.duration)], ?_, ?_, ?_⟩, fun u hu => ?_⟩
  · simp [PreprocessorState.transform, hpok, hhok, Except.bind, bind, pure,
      Except.pure]
  · simp [hsav]
  · simp [hchk]
  · simp [OrdColState.transform, OrdColState.encode, hu, Except.map]

/-- The sample row with categories in `Saving accounts` and
`Checking account` that `witState` never saw at fit time. -/
def unseenRow : MappedRow :=
  { age := 30, sex := some 1, job := 2, housing := some "own",
    saving_accounts := some "plenty", checking_account := some "overdrawn",
    credit_amount := 5000, duration := 12, purpose := some "car" }

/-- C2 amended witness: instantiated at a fitted state with unit scalers and
a row whose `Saving accounts` and `Checking account` hold categories absent
from the fitted maps. -/
theorem claim_C2_amended_witness :
    (∃ prep,
      witState.transform unseenRow = .ok prep
      ∧ prep[2]? =
          some (some (witState.saving.scaler.transform witState.saving.fallback))
      ∧ prep[3]? =
          some (some
            (witState.checking.scaler.transform witState.checking.fallback)))
    ∧ (∀ u, witState.purpose.code u = none →
        witState.purpose.transform (some u) = .error (.unknownCategory u)) :=
  claim_C2_amended witState unseenRow
    "plenty" "overdrawn" 0 0 rfl rfl rfl rfl rfl rfl

/-- C3 counterexample: with a `Sex` value that is neither `"male"` nor
`"female"`, `PredictPipeline.predict` does not fail at all: the value is
silently mapped to null, the pipeline runs to completion and returns a
verdict, refuting the claimed `TransformConfigError`. -/
theorem claim_C3_cex :
    mapSexPredict "diverse" = none
    ∧ (predictRun witState (fun _ => 0)
        [{ witRow with sex := "diverse" }]).1 = .ok goodRiskStr
    ∧ (predictRun witState (fun _ => 0)
        [{ witRow with sex := "diverse" }]).2.map (fun m => m.sex) = [none] := by
  refine ⟨rfl, ?_, rfl⟩
  have hT : ¬ THRESHOLD ≤ (0 : ℚ) := by norm_num [THRESHOLD]
  have e1 : (predictRun witState (fun _ => 0)
      [{ witRow with sex := "diverse" }]).1 =
      .ok (if THRESHOLD ≤ (0 : ℚ) then badRiskStr else goodRiskStr) := rfl
  rw [e1, if_neg hT]

/-- C3 amended: the sex mapping `"male"→1, "female"→0` is literally the same
at train and inference time; but an unrecognized value is silently converted
to null (NaN) by `Series.map` and the prediction continues — no
`TransformConfigError` (no such kind exists in the code) is raised. -/
theorem claim_C3_amended (st : PreprocessorState) (model : Model)
    (r : FeatureRow) (h1 : r.sex ≠ "male") (h2 : r.sex ≠ "female") :
    (∀ s, mapSexTrain s = mapSexPredict s)
    ∧ mapSexPredict r.sex = none
    ∧ (predictRun st model [r]).2.map (fun m => m.sex) = [none] := by
  refine ⟨fun s => rfl, ?_, ?_⟩
  · simp [mapSexPredict, h1, h2]
  · simp [predictRun, mapSexRow, mapSexPredict, h1, h2]

/-- C3 amended witness: instantiated at a concrete unrecognized sex value. -/
theorem claim_C3_amended_witness :
    (∀ s, mapSexTrain s = mapSexPredict s)
    ∧ mapSexPredict "nonbinary" = none
    ∧ (predictRun witState (fun _ => 1)
        [{ witRow with sex := "nonbinary" }]).2.map (fun m => m.sex) = [none] :=
  claim_C3_amended witState (fun _ => 1) { witRow with sex := "nonbinary" }
    (by decide) (by decide)

/-- C10: on a multi-row input, whenever `PredictPipeline.predict` returns a
verdict, that verdict is exactly the one produced for the first row alone —
the remaining rows are transformed and scored but do not influence the
returned value (`prediction[0]`). -/
theorem claim_C10 (st : PreprocessorState) (model : Model) (r : FeatureRow)
    (rest : List FeatureRow) (l : String)
    (h : (predictRun st model (r :: rest)).1 = .ok l) :
    (predictRun st model [r]).1 = .ok l := by
  unfold predictRun at h ⊢
  simp only [List.map] at h ⊢
  cases hx : st.transform (mapSexRow r) with
  | error e => simp [transformAll, hx, Except.bind, bind] at h
  | ok p =>
    cases hxs : transformAll st (rest.map mapSexRow) with
    | error e => simp [transformAll, hx, hxs, Except.bind, bind] at h
    | ok ps =>
      simp [transformAll, hx, hxs, Except.bind, bind, pure, Except.pure,
        predictProba] at h ⊢
      exact h

/-- C10 witness: a two-row input whose verdict equals the verdict of its
first row alone. -/
theorem claim_C10_witness :
    (predictRun witState (fun _ => 1) [witRow]).1 = .ok badRiskStr := by
  have hT : THRESHOLD ≤ (1 : ℚ) := by norm_num [THRESHOLD]
  have e1 : (predictRun witState (fun _ => 1)
      [witRow, { witRow with purpose := some "radio/TV", duration := 24 }]).1 =
      .ok (if THRESHOLD ≤ (1 : ℚ) then badRiskStr else goodRiskStr) := rfl
  exact claim_C10 witState (fun _ => 1) witRow
    [{ witRow with purpose := some "radio/TV", duration := 24 }] badRiskStr
    (by rw [e1, if_pos hT])

/-- C5: for every encoder state produced by `fit`, every successful
`transform` — of a training row or of any later row in the same schema —
yields a matrix row with exactly the nine output columns of the fit, in the
fixed order `outputColumns`, each cell computed from its own source
column. -/
theorem claim_C5 (sqrtQ : ℚ → ℚ) (rows : List MappedRow)
    (ys : List (Option ℚ)) (r r' : MappedRow) (prep prep' : List (Option ℚ))
    (h : (PreprocessorState.fit sqrtQ rows ys).transform r = .ok prep)
    (h' : (PreprocessorState.fit sqrtQ rows ys).transform r' = .ok prep') :
    prep.length = outputColumns.length
    ∧ prep'.length = outputColumns.length
    ∧ prep.length = prep'.length
    ∧ ∃ p hq,
        (PreprocessorState.fit sqrtQ rows ys).purpose.transform r.purpose
          = .ok p
        ∧ (PreprocessorState.fit sqrtQ rows ys).housing.transform r.housing
          = .ok hq
        ∧ prep = [some p, some hq,
            some ((PreprocessorState.fit sqrtQ rows ys).saving.transform
              r.saving_accounts),
            some ((PreprocessorState.fit sqrtQ rows ys).checking.transform
              r.checking_account),
            some ((PreprocessorState.fit sqrtQ rows ys).age.transform r.age),
            (PreprocessorState.fit sqrtQ rows ys).sexP.transformO r.sex,
            some ((PreprocessorState.fit sqrtQ rows ys).job.transform r.job),
            some ((PreprocessorState.fit sqrtQ rows ys).credit.transform
              r.credit_amount),
            some ((PreprocessorState.fit sqrtQ rows ys).durationP.transform
              r.duration)] := by
  obtain ⟨p, hq, h1, h2, h3⟩ := transform_ok_shape _ _ _ h
  obtain ⟨p', hq', h1', h2', h3'⟩ := transform_ok_shape _ _ _ h'
  subst h3; subst h3'
  exact ⟨rfl, rfl, rfl, p, hq, h1, h2, rfl⟩

/-- The matrix row `sampleState.transform` produces for the first sample
training row, written out cell by cell. -/
def samplePrep : List (Option ℚ) :=
  [some (sampleState.purpose.scaler.transform ((0 : ℕ) : ℚ)),
   some (sampleState.housing.scaler.transform ((0 : ℕ) : ℚ)),
   some (sampleState.saving.transform (some "little")),
   some (sampleState.checking.transform (some "moderate")),
   some (sampleState.age.transform 30),
   some (sampleState.sexP.transform 1),
   some (sampleState.job.transform 2),
   some (sampleState.credit.transform 5000),
   some (sampleState.durationP.transform 12)]

/-- Transforming the first sample training row with the fitted sample state
succeeds and produces `samplePrep`. -/
theorem sample_transform_ok :
    (PreprocessorState.fit id sampleRows sampleYs).transform
      (mapTrainRow trainRow1) = .ok samplePrep := rfl

/-- C5 witness: instantiated at the preprocessor fitted on the sample
training set, transforming the first training row twice. -/
theorem claim_C5_witness :
    samplePrep.length = outputColumns.length
    ∧ samplePrep.length = outputColumns.length
    ∧ samplePrep.length = samplePrep.length
    ∧ ∃ p hq,
        sampleState.purpose.transform (mapTrainRow trainRow1).purpose = .ok p
        ∧ sampleState.housing.transform (mapTrainRow trainRow1).housing
          = .ok hq
        ∧ samplePrep = [some p, some hq,
            some (sampleState.saving.transform
              (mapTrainRow trainRow1).saving_accounts),
            some (sampleState.checking.transform
              (mapTrainRow trainRow1).checking_account),
            some (sampleState.age.transform (mapTrainRow trainRow1).age),
            sampleState.sexP.transformO (mapTrainRow trainRow1).sex,
            some (sampleState.job.transform (mapTrainRow trainRow1).job),
            some (sampleState.credit.transform
              (mapTrainRow trainRow1).credit_amount),
            some (sampleState.durationP.transform
              (mapTrainRow trainRow1).duration)] :=
  claim_C5 id sampleRows sampleYs
    (mapTrainRow trainRow1) (mapTrainRow trainRow1) samplePrep samplePrep
    sample_transform_ok sample_transform_ok

/-- C6: fitting the ordinal pipeline on a column imputes missing cells with
the column's most frequent observed category, and assigns every category seen
at fit time (after imputation) a stable integer code — its index in the
sorted category list — which the transform-side encoder reproduces exactly,
so fit and transform agree on the code of every category seen at fit
time. -/
theorem claim_C6 (sqrtQ : ℚ → ℚ) (xs : List (Option String)) (c : String)
    (hc : c ∈ xs.map (fun cell => cell.getD (mostFrequent (xs.filterMap id)))) :
    (OrdColState.fitCol sqrtQ xs).imputeValue = mostFrequent (xs.filterMap id)
    ∧ ∃ k, (OrdColState.fitCol sqrtQ xs).code c = some k
        ∧ (OrdColState.fitCol sqrtQ xs).encode (some c) = .ok (k : ℚ)
        ∧ (((OrdColState.fitCol sqrtQ xs).categories.findIdx?
              (fun x => x = c)).getD 0) = k := by
  have hmem : c ∈ (OrdColState.fitCol sqrtQ xs).categories := by
    show c ∈ sortedDistinct _
    rw [sortedDistinct, List.mem_dedup]
    exact ((List.perm_insertionSort _ _).mem_iff).2 hc
  have hsome : ((OrdColState.fitCol sqrtQ xs).categories.findIdx?
      (fun x => x = c)).isSome := by
    rw [List.findIdx?_isSome]
    exact List.any_eq_true.2 ⟨c, hmem, by simp⟩
  obtain ⟨k, hk⟩ := Option.isSome_iff_exists.1 hsome
  refine ⟨rfl, k, hk, ?_, by rw [hk]; rfl⟩
  simp [OrdColState.encode, OrdColState.code, hk]

/-- C6 witness: instantiated at a concrete column with a missing cell. -/
theorem claim_C6_witness :
    (OrdColState.fitCol id
        [some "car", none, some "radio/TV"]).imputeValue =
      mostFrequent ([some "car", none,
        some "radio/TV"].filterMap id)
    ∧ ∃ k, (OrdColState.fitCol id
          [some "car", none, some "radio/TV"]).code "car" = some k
        ∧ (OrdColState.fitCol id
            [some "car", none, some "radio/TV"]).encode (some "car")
          = .ok (k : ℚ)
        ∧ (((OrdColState.fitCol id
              [some "car", none, some "radio/TV"]).categories.findIdx?
              (fun x => x = "car")).getD 0) = k :=
  claim_C6 id [some "car", none, some "radio/TV"] "car" (by decide)

/-- C7: every failure inside `TrainPipeline.train` or
`PredictPipeline.predict` is re-raised as the categorized wrapper
(`CustomException`, the spec's `TrainingError`/`PredictionError`) that
preserves the underlying cause; no raw error escapes unwrapped and no error
is swallowed into a success. -/
theorem claim_C7 (sqrtQ : ℚ → ℚ)
    (ingest : Except PyError (List RawTrainRow × List RawTrainRow))
    (trainer : List (List (Option ℚ) × Option ℚ) →
      List (List (Option ℚ) × Option ℚ) → Except PyError (String × ℚ))
    (st : PreprocessorState) (model : Model) (features : List FeatureRow) :
    (∀ e, transformAll st (features.map mapSexRow) = .error e →
        (predictRun st model features).1 = .error (.custom e))
    ∧ (∀ e', (predictRun st model features).1 = .error e' →
        ∃ c, e' = .custom c)
    ∧ (∀ e, ingest = .error e →
        trainRun sqrtQ ingest trainer = .error (.custom e))
    ∧ (∀ e', trainRun sqrtQ ingest trainer = .error e' →
        ∃ c, e' = .custom c) := by
  refine ⟨fun e he => ?_, fun e' he' => ?_, fun e he => ?_, fun e' he' => ?_⟩
  · simp [predictRun, he]
  · unfold predictRun at he'
    cases ht : transformAll st (features.map mapSexRow) with
    | error e =>
      simp [ht] at he'
      exact ⟨e, he'.symm⟩
    | ok prepared =>
      cases hp : predictProba model prepared with
      | nil =>
        simp [ht, hp] at he'
        exact ⟨.indexError, he'.symm⟩
      | cons p ps => simp [ht, hp] at he'
  · simp [trainRun, he]
  · unfold trainRun at he'
    cases hi : ingest with
    | error e =>
      simp [hi] at he'
      exact ⟨e, he'.symm⟩
    | ok tt =>
      cases ha : applyDataTransformation sqrtQ tt.1 tt.2 with
      | error e =>
        simp [hi, ha] at he'
        exact ⟨e, he'.symm⟩
      | ok res =>
        cases htr : trainer res.1 res.2.1 with
        | error e =>
          simp [hi, ha, htr] at he'
          exact ⟨e, he'.symm⟩
        | ok rep => simp [hi, ha, htr] at he'

/-- C7 witness: an ingestion failure is re-raised by the training pipeline as
the categorized wrapper around that exact cause. -/
theorem claim_C7_witness :
    trainRun id (.error (.ingestionFailure "artifact csv unreadable"))
        (fun _ _ => .ok ("report", 1))
      = .error (.custom (.ingestionFailure "artifact csv unreadable")) :=
  (claim_C7 id (.error (.ingestionFailure "artifact csv unreadable"))
    (fun _ _ => .ok ("report", 1)) witState (fun _ => 1) []).2.2.1 _ rfl

/-- C8 counterexample: an `InputData` built from malformed free-form text
(non-integer age, job, credit amount and duration) is accepted unchanged and
`get_input_data_df` succeeds — no type validation or coercion happens and no
error of any kind is raised at the input boundary. -/
theorem claim_C8_cex :
    (InputData.mk "thirty" "male" "2.5x" "own" "little" "moderate" "5k"
        "twelve" "car").get_input_data_df
      = { colAge := "thirty", colSex := "male", colJob := "2.5x",
          colHousing := "own", colSavingAccounts := "little",
          colCheckingAccount := "moderate", colCreditAmount := "5k",
          colDuration := "twelve", colPurpose := "car" } := rfl

/-- C8 amended: the input boundary performs no validation or coercion at all:
`InputData.__init__` stores every free-form field unchanged and
`get_input_data_df` packs them, unchanged, into the prediction DataFrame
without any possibility of failure; malformed values flow on into the
pipeline, whose later failures surface only as the generic wrapped
`CustomException`, never as a dedicated `TransformConfigError` (no such kind
exists in the code). -/
theorem claim_C8_amended (a s j h sa ca cr d p : String) :
    (InputData.mk a s j h sa ca cr d p).get_input_data_df
      = { colAge := a, colSex := s, colJob := j, colHousing := h,
          colSavingAccounts := sa, colCheckingAccount := ca,
          colCreditAmount := cr, colDuration := d, colPurpose := p } := rfl

end CreditRisk
